import Mathlib

/-!
Verification development for the ansibulled documentation pipeline
(`src/ansibulled/cli/doc_commands/stable.py` and `src/ansibulled/write_docs.py`).

The Python code is shallowly embedded: Python dicts become insertion-ordered
association lists (`pySet` updates an existing key in place and appends a new
key at the end, exactly like CPython dicts), raised exceptions become the
`Except.error` channel carrying the exception's rendering, and the external
collaborators (the pydantic schema validators `DOCS_SCHEMAS`, the galaxy
downloader, the dump file on disk) become explicit parameters, as the
specification treats them as opaque collaborators.
-/

namespace Ansibulled

/-- Insertion-ordered association list lookup, modelling Python `d[k]` /
`d.get(k)` over `dict` (first — and only — binding of a key wins). -/
def pyFind {α : Type} : List (String × α) → String → Option α
  | [], _ => none
  | kv :: rest, k => if kv.1 = k then some kv.2 else pyFind rest k

/-- Python `d[k] = v` on a `dict`: update an existing key in place (keeping
its position) or append a new key at the end. -/
def pySet {α : Type} : List (String × α) → String → α → List (String × α)
  | [], k, v => [(k, v)]
  | kv :: rest, k, v => if kv.1 = k then (k, v) :: rest else kv :: pySet rest k v

/-- Python `d.update(other)`: `d[k] = v` for each binding of `other` in order. -/
def pyUpdate {α : Type} (d other : List (String × α)) : List (String × α) :=
  other.foldl (fun acc kv => pySet acc kv.1 kv.2) d

/-- Python `dict(zip(keys, vals))`: insert the pairs left to right. -/
def pyDictZip {α : Type} (keys : List String) (vals : List α) : List (String × α) :=
  (keys.zip vals).foldl (fun acc kv => pySet acc kv.1 kv.2) []

/-- Inner dictionary of string leaves: the payload of one logical section of a
plugin record (enough structure for `new_info["doc"]["name"]`). -/
abbrev Inner := List (String × String)

/-- A plugin record / `new_info` dict: section key to section payload. -/
abbrev PluginRec := List (String × Inner)

/-- Mapping plugin type to plugin name to record, the shape of `plugin_info`
and of `new_plugin_info` in `stable.py`. -/
abbrev PluginMap := List (String × List (String × PluginRec))

/-- A value stored in a `nonfatal_errors` list.  The declared type is
`List[str]`, but Python does not enforce it: the `extend(results[1])` line of
`normalize_all_plugin_info` pushes a dict object and a list object into the
list, so the embedding keeps all three shapes distinguishable. -/
inductive PyObj where
  | str : String → PyObj
  | dictObj : PluginRec → PyObj
  | listObj : List String → PyObj
deriving DecidableEq, Repr

/-- The `nonfatal_errors` structure: `defaultdict(lambda: defaultdict(list))`,
plugin type to plugin name to list of recorded objects. -/
abbrev ErrorMap := List (String × List (String × List PyObj))

/-- Lookup `m[pt][pn]` without the defaultdict insertion side effect
(observer used in theorem statements). -/
def emLookup (m : ErrorMap) (pt pn : String) : Option (List PyObj) :=
  (pyFind m pt).bind (fun inner => pyFind inner pn)

/-- Python `m[pt][pn].extend(xs)` on `defaultdict(lambda: defaultdict(list))`:
a missing outer key is inserted with a fresh inner defaultdict, a missing
inner key is inserted with `[]`, then `xs` is appended.  With `xs = []` this
is exactly the key-insertion side effect of a bare `m[pt][pn]` lookup. -/
def emAppend (m : ErrorMap) (pt pn : String) (xs : List PyObj) : ErrorMap :=
  let inner := (pyFind m pt).getD []
  let cur := (pyFind inner pn).getD []
  pySet m pt (pySet inner pn (cur ++ xs))

/-- Python `new_plugin_info[pt][pn] = r` on `defaultdict(dict)`. -/
def pmSet (m : PluginMap) (pt pn : String) (r : PluginRec) : PluginMap :=
  pySet m pt (pySet ((pyFind m pt).getD []) pn r)

/-- External collaborator model: the pydantic schemas `DOCS_SCHEMAS` of the
repository's `schemas.docs` module (out of scope per the spec, which treats
schema validation as the opaque `validate` collaborator that either returns a
validated value or fails with a validation error).
`parse pt field raw` models `DOCS_SCHEMAS[pt][field].parse_obj(raw).dict()`;
`parseDefault pt field` models `DOCS_SCHEMAS[pt][field].parse_obj({})`
(the per-section default, total because the section schemas carry defaults). -/
structure Schemas where
  parse : String → String → PluginRec → Except String PluginRec
  parseDefault : String → String → PluginRec

/-- Field order of the loop in `normalize_plugin_info`: doc first, then
examples, then return. -/
def fieldsOrder : List String := ["doc", "examples", "return"]

/-- One pass of the `for field in ('doc', 'examples', 'return')` loop of
`normalize_plugin_info` (stable.py lines 68-88), carrying `new_info` and
`errors`.  A doc validation failure re-raises (`Except.error`); any other
field failure appends the f-string diagnostic built from
`new_info["doc"]["name"]` (a missing key there would be a Python `KeyError`,
also modelled as a raise) and merges the section's default. -/
def npiFold (sch : Schemas) (plugin_type : String) (plugin_info : PluginRec) :
    List String → PluginRec × List String → Except String (PluginRec × List String)
  | [], acc => Except.ok acc
  | field :: rest, (new_info, errors) =>
    match sch.parse plugin_type field plugin_info with
    | Except.ok out => npiFold sch plugin_type plugin_info rest (pyUpdate new_info out, errors)
    | Except.error e =>
      if field = "doc" then
        Except.error e
      else
        match pyFind new_info "doc" with
        | none => Except.error "KeyError: doc"
        | some docSection =>
          match pyFind docSection "name" with
          | none => Except.error "KeyError: name"
          | some nm =>
            npiFold sch plugin_type plugin_info rest
              (pyUpdate new_info (sch.parseDefault plugin_type field),
               errors ++ ["Unable to normalize " ++ nm ++ ": " ++ field ++ " due to: " ++ e])

/-- Embedding of `normalize_plugin_info` (stable.py lines 68-88): validate the
three sections in fixed order, raising on a doc failure and substituting the
defined default (plus one diagnostic) for a failed examples or return
section. -/
def normalize_plugin_info (sch : Schemas) (plugin_type : String) (plugin_info : PluginRec) :
    Except String (PluginRec × List String) :=
  npiFold sch plugin_type plugin_info fieldsOrder ([], [])

/-- The deterministic enumeration of the nested `plugin_info` mapping used to
build the `normalizers` dict (outer loop over plugin types, inner loop over
plugin names, both in dict insertion order). -/
def enumPlugins (plugin_info : PluginMap) : List ((String × String) × PluginRec) :=
  (plugin_info.map (fun tl => tl.2.map (fun nr => ((tl.1, nr.1), nr.2)))).flatten

/-- Outcome of one worker of the normalization pool, as observed after
`asyncio.gather(..., return_exceptions=True)`: either the worker's
`(new_info, errors)` pair or the exception it raised, captured as data. -/
abbrev Outcome := Except String (PluginRec × List String)

/-- One iteration of the aggregation loop of `normalize_all_plugin_info`
(stable.py lines 109-119), faithful to the source's
`nonfatal_errors[plugin_type][plugin_name].extend(results[1])` — `results[1]`
(the second element of the gathered results list), not `plugin_record[1]`:
with fewer than two results Python raises `IndexError`; when `results[1]` is a
captured exception, `list.extend` on a non-iterable raises `TypeError`; when
it is a `(dict, list)` tuple, its two elements (a dict object and a list
object) are appended verbatim. -/
def naStep (results : List Outcome) (acc : PluginMap × ErrorMap)
    (kr : (String × String) × Outcome) : Except String (PluginMap × ErrorMap) :=
  match kr with
  | ((plugin_type, plugin_name), plugin_record) =>
    match plugin_record with
    | Except.error e =>
      Except.ok (pmSet acc.1 plugin_type plugin_name [],
                 emAppend acc.2 plugin_type plugin_name [PyObj.str e])
    | Except.ok (new_info, errors) =>
      if errors = [] then
        Except.ok (pmSet acc.1 plugin_type plugin_name new_info, acc.2)
      else
        match results.get? 1 with
        | none => Except.error "IndexError: list index out of range"
        | some (Except.error _) =>
          Except.error "TypeError: argument of type Exception is not iterable"
        | some (Except.ok (d, l)) =>
          Except.ok (pmSet acc.1 plugin_type plugin_name new_info,
                     emAppend acc.2 plugin_type plugin_name [PyObj.dictObj d, PyObj.listObj l])

/-- Fold of `naStep` over the zipped `(identity, result)` list, propagating a
raise out of the loop. -/
def naFold (results : List Outcome) :
    List ((String × String) × Outcome) → PluginMap × ErrorMap →
    Except String (PluginMap × ErrorMap)
  | [], acc => Except.ok acc
  | x :: xs, acc =>
    match naStep results acc x with
    | Except.error e => Except.error e
    | Except.ok acc2 => naFold results xs acc2

/-- Embedding of `normalize_all_plugin_info` (stable.py lines 91-121): submit
one worker per item in the deterministic enumeration order of the input
mapping, gather the results positionally (`asyncio.gather` returns them in
submission order whatever the completion order), and run the aggregation loop
over `zip(normalizers, results)`. -/
def normalize_all_plugin_info (sch : Schemas) (plugin_info : PluginMap) :
    Except String (PluginMap × ErrorMap) :=
  let keyed := enumPlugins plugin_info
  let results := keyed.map (fun kr => normalize_plugin_info sch kr.1.1 kr.2)
  naFold results ((keyed.map Prod.fst).zip results) ([], [])

/-- Test schema instance: a section validates iff the raw record carries that
section's key (its payload is echoed under the section key); the default for
a section is the empty payload.  A concrete instance of the collaborator
interface of spec section 6 (`validate` either returns a value or fails with
a validation error). -/
def testSchemas : Schemas where
  parse := fun _pt field raw =>
    match pyFind raw field with
    | some v => Except.ok [(field, v)]
    | none => Except.error ("ValidationError: " ++ field)
  parseDefault := fun _pt field => [(field, [])]

/-- Raw record whose three sections all validate under `testSchemas`. -/
def rawGood : PluginRec :=
  [("doc", [("name", "good")]), ("examples", [("value", "ex")]), ("return", [("value", "ret")])]

/-- Raw record whose examples section fails validation under `testSchemas`
(doc and return are fine). -/
def rawBadExamples : PluginRec :=
  [("doc", [("name", "bad")]), ("return", [("value", "ret")])]

/-- Raw record whose doc section fails validation under `testSchemas`,
making its worker raise. -/
def rawBadDoc : PluginRec :=
  [("examples", [("value", "ex")]), ("return", [("value", "ret")])]

/-- Normalized form of `rawGood` under `testSchemas`. -/
def outGood : PluginRec :=
  [("doc", [("name", "good")]), ("examples", [("value", "ex")]), ("return", [("value", "ret")])]

/-- Normalized form of `rawBadExamples` under `testSchemas`: examples replaced
by the section default. -/
def outBadExamples : PluginRec :=
  [("doc", [("name", "bad")]), ("examples", []), ("return", [("value", "ret")])]

/-- Decidable equality for task outcomes (structural comparison). -/
instance : DecidableEq (Except String String) := fun a b =>
  match a, b with
  | Except.error x, Except.error y =>
    if h : x = y then isTrue (by rw [h]) else isFalse (fun hh => h (Except.error.inj hh))
  | Except.error _, Except.ok _ => isFalse (fun hh => Except.noConfusion hh)
  | Except.ok _, Except.error _ => isFalse (fun hh => Except.noConfusion hh)
  | Except.ok x, Except.ok y =>
    if h : x = y then isTrue (by rw [h]) else isFalse (fun hh => h (Except.ok.inj hh))

/-- Characterwise split on the dot character, modelling Python `str.split`
with no limit: the empty string yields one empty part and n separators yield
n + 1 parts. -/
def splitDots : List Char → List (List Char)
  | [] => [[]]
  | c :: rest =>
    match splitDots rest with
    | [] => [[]]
    | h :: t => if c = '.' then [] :: h :: t else (c :: h) :: t

/-- Python `s.split('.')`. -/
def pySplitDotAll (s : String) : List String :=
  (splitDots s.data).map (fun cs => String.mk cs)

/-- Python `'.'.join(parts)`. -/
def joinDot : List String → String
  | [] => ""
  | [s] => s
  | s :: rest => s ++ "." ++ joinDot rest

/-- Python `s.split('.', 2)`: at most two splits, so at most three parts. -/
def pySplitDot2 (s : String) : List String :=
  match pySplitDotAll s with
  | a :: b :: c :: rest => [a, b, joinDot (c :: rest)]
  | ps => ps

/-- Whether the string starts with a path separator. -/
def strHeadIsSlash (s : String) : Bool :=
  match s.data with
  | [] => false
  | c :: _ => c = '/'

/-- Whether the string ends with a path separator. -/
def strLastIsSlash (s : String) : Bool :=
  match s.data.getLast? with
  | some c => c = '/'
  | none => false

/-- Model of POSIX `os.path.join` for one right component (no absolute
override needed for the relative components the code joins). -/
def ospJoin (a b : String) : String :=
  if a = "" then b
  else if strHeadIsSlash b then b
  else if strLastIsSlash a then a ++ b
  else a ++ "/" ++ b

/-- Embedding of the path computation of `write_rst` (write_docs.py lines
52-65).  The three-way unpacking `namespace, collection, _dummy =
plugin_name.split('.', 2)` raises `ValueError` unless the split yields exactly
three parts; `collection_name` is the dot-join of the first two parts (the
`if not collection_name` default to `'ansible.builtins'` can only trigger on
an empty string); the file name is the source's literal string
`'\x7bplugin_name\x7d_\x7bplugin_type\x7d.rst'` (the source line has no `f`
prefix, so the braces are not interpolated). -/
def write_rst_path (plugin_name plugin_type dest_dir : String) : Except String String :=
  match pySplitDot2 plugin_name with
  | [ns, collection, _dummy] =>
    let collection_name := joinDot [ns, collection]
    let collection_name := if collection_name = "" then "ansible.builtins" else collection_name
    let collection_dir := ospJoin (ospJoin dest_dir "collections") collection_name
    let _ := plugin_type
    Except.ok (ospJoin collection_dir "\x7bplugin_name\x7d_\x7bplugin_type\x7d.rst")
  | _ => Except.error "ValueError: not enough values to unpack (expected 3)"

/-- Events of the render-stage coroutine `output_all_plugin_rst`:
`asyncio.create_task` on one `write_rst` coroutine, an await of one such
task, and the coroutine returning. -/
inductive RenderEv where
  | createWriteTask : String → String → RenderEv
  | awaitWrite : String → String → RenderEv
  | ret : RenderEv
deriving DecidableEq, Repr

/-- Event trace of `output_all_plugin_rst` (write_docs.py lines 88-95):
one `asyncio.create_task(write_rst(...))` per plugin in enumeration order,
then the coroutine returns.  The final `asyncio.gather(*writers)` is not
awaited in the source — the coroutine never suspends on the writers, so no
`awaitWrite` event ever occurs before `ret`. -/
def output_all_plugin_rst_trace (plugin_info : PluginMap) : List RenderEv :=
  (enumPlugins plugin_info).map (fun kr => RenderEv.createWriteTask kr.1.1 kr.1.2)
    ++ [RenderEv.ret]

/-- Identities whose write task was dispatched in a render trace. -/
def createdTasks (tr : List RenderEv) : List (String × String) :=
  tr.filterMap (fun e =>
    match e with
    | RenderEv.createWriteTask pt pn => some (pt, pn)
    | _ => none)

/-- Identities whose write task was awaited in a render trace. -/
def awaitedTasks (tr : List RenderEv) : List (String × String) :=
  tr.filterMap (fun e =>
    match e with
    | RenderEv.awaitWrite pt pn => some (pt, pn)
    | _ => none)

/-- Effect of one executed `write_rst` body on the shared `nonfatal_errors`
defaultdict (write_docs.py lines 41-50): both template branches evaluate the
subscript `nonfatal_errors[plugin_type][plugin_name]`, whose only mutation is
the defaultdict key-insertion side effect (`emAppend` with `[]`). -/
def write_rst_errState (plugin_name plugin_type : String) (nonfatal_errors : ErrorMap) :
    ErrorMap :=
  emAppend nonfatal_errors plugin_type plugin_name []

/-- Accumulated effect on the Error Map of running the `write_rst` bodies for
a list of `(plugin_type, plugin_name)` identities. -/
def render_stage_errState (items : List (String × String)) (m : ErrorMap) : ErrorMap :=
  items.foldl (fun acc it => write_rst_errState it.2 it.1 acc) m

/-- Events of the acquisition stage `retrieve` (stable.py lines 49-61). -/
inductive AcqEv where
  | mkdirCollections : String → AcqEv
  | createBaseTask : AcqEv
  | createDownloadTask : String → AcqEv
deriving DecidableEq, Repr

/-- Statement-order event trace of `retrieve`: `os.mkdir` of the collections
working directory, then `asyncio.create_task(get_ansible_base(...))`, then one
`asyncio.create_task(downloader.download(...))` per collection in mapping
order — all before the single `await asyncio.gather(...)`. -/
def retrieve_events (tmp_dir : String) (collections : List (String × String)) : List AcqEv :=
  AcqEv.mkdirCollections (ospJoin tmp_dir "collections") :: AcqEv.createBaseTask ::
    collections.map (fun cv => AcqEv.createDownloadTask cv.1)

/-- Model of `await asyncio.gather(*tasks)` without `return_exceptions`: all
results in submission order, or a raise if any task failed. -/
def gatherAll {α : Type} : List (Except String α) → Except String (List α)
  | [] => Except.ok []
  | Except.error e :: _ => Except.error e
  | Except.ok v :: xs =>
    match gatherAll xs with
    | Except.error e => Except.error e
    | Except.ok vs => Except.ok (v :: vs)

/-- The `requestors` dict of `retrieve` (stable.py lines 52-59): insert the
binding for the mandatory base task first, then one binding per collection in
mapping order.  `base` models the outcome of the `get_ansible_base` task and
`dl c v` the outcome of `downloader.download(c, v)`. -/
def retrieve_requestors (base : Except String String)
    (dl : String → String → Except String String)
    (collections : List (String × String)) : List (String × Except String String) :=
  collections.foldl (fun acc cv => pySet acc cv.1 (dl cv.1 cv.2))
    (pySet [] "_ansible_base" base)

/-- Embedding of the value computed by `retrieve` (stable.py lines 37-65):
build the `requestors` dict, gather the task results in that same submission
order (`asyncio.gather` keeps submission order whatever the completion
order), and return `dict(zip(requestors, responses))`. -/
def retrieve (base : Except String String) (dl : String → String → Except String String)
    (collections : List (String × String)) : Except String (List (String × String)) :=
  let requestors := retrieve_requestors base dl collections
  match gatherAll (requestors.map Prod.snd) with
  | Except.error e => Except.error e
  | Except.ok responses => Except.ok (pyDictZip (requestors.map Prod.fst) responses)

/-- Stage-level events of the `generate_docs` orchestrator. -/
inductive StageEv where
  | acquire : StageEv
  | install : StageEv
  | extract : StageEv
  | normalize : StageEv
  | render : StageEv
deriving DecidableEq, Repr

/-- What a completed `generate_docs` run reports: its return code, the stages
that executed, and the render-stage event trace at the moment the run
returned. -/
structure RunResult where
  code : Nat
  stages : List StageEv
  renderTrace : List RenderEv
deriving DecidableEq, Repr

/-- External inputs of the statically disabled acquisition branch of
`generate_docs`: the ansible-base download outcome, the collection download
outcomes, the parsed collections of the deps file, and the
`get_ansible_plugin_info` extraction result. -/
structure AcqModel where
  base : Except String String
  dl : String → String → Except String String
  collections : List (String × String)
  extracted : PluginMap

/-- The literal guard of stable.py line 141: the whole acquisition / install /
extract block sits under `if False:` in the source. -/
def retrieveEnabled : Bool := false

/-- Tail of `generate_docs` from stable.py line 172 on: read the dumped
plugin info from the hardcoded dump file (modelled by `dumpData` — this read
happens on every run, outside the disabled branch), normalize it, then run
`output_all_plugin_rst` and return 0.  A raise out of normalization
propagates. -/
def generate_docs_tail (dumpData : PluginMap) (sch : Schemas) (pre : List StageEv) :
    Except String RunResult :=
  match normalize_all_plugin_info sch dumpData with
  | Except.error e => Except.error e
  | Except.ok (new_plugin_info, _nonfatal_errors) =>
    Except.ok ⟨0, pre ++ [StageEv.normalize, StageEv.render],
               output_all_plugin_rst_trace new_plugin_info⟩

/-- Embedding of `generate_docs` (stable.py lines 124-189).  The acquisition
branch (retrieve, the `'_ansible_base'` pop with its `return 3`, install,
venv, extract) is guarded by the source's literal `if False:`
(`retrieveEnabled`); whichever branch is taken, the code then reads
`/srv/ansible/ansibulled/dump_data.json` (`dumpData`) and continues with
normalization and rendering of that data. -/
def generate_docs (acq : AcqModel) (dumpData : PluginMap) (sch : Schemas) :
    Except String RunResult :=
  if retrieveEnabled then
    match retrieve acq.base acq.dl acq.collections with
    | Except.error e => Except.error e
    | Except.ok collection_tarballs =>
      match pyFind collection_tarballs "_ansible_base" with
      | none => Except.ok ⟨3, [StageEv.acquire], []⟩
      | some _ =>
        generate_docs_tail dumpData sch [StageEv.acquire, StageEv.install, StageEv.extract]
  else
    generate_docs_tail dumpData sch []

/-- An acquisition model whose mandatory ansible-base request fails. -/
def failingAcq : AcqModel :=
  ⟨Except.error "HTTPError: 404 ansible-base not found",
   fun _ _ => Except.error "HTTPError: network error",
   [("ns.coll", "1.0")], []⟩

/-- An acquisition model in which every request succeeds. -/
def okAcq : AcqModel :=
  ⟨Except.ok "base.tar.gz", fun c v => Except.ok (c ++ "-" ++ v ++ ".tar.gz"),
   [("ns.coll", "1.0")], []⟩

/-- Dump-file contents with a single clean plugin. -/
def goodDump : PluginMap := [("module", [("ns.coll.foo", rawGood)])]

/-- Dump-file contents used for the stage-barrier analysis. -/
def dumpC7 : PluginMap := [("module", [("ns.coll.c7", rawGood)])]

/-! Helper lemmas about the Python dict model. -/

/-- Looking up the key just set yields the value set. -/
theorem pyFind_pySet_self {α : Type} (d : List (String × α)) (k : String) (v : α) :
    pyFind (pySet d k v) k = some v := by
  induction d with
  | nil => simp [pySet, pyFind]
  | cons kv rest ih =>
    by_cases h : kv.1 = k
    · simp [pySet, h, pyFind]
    · simp [pySet, h, pyFind, ih]

/-- Setting one key leaves lookups of other keys unchanged. -/
theorem pyFind_pySet_other {α : Type} (d : List (String × α)) (k k2 : String) (v : α)
    (h : k2 ≠ k) : pyFind (pySet d k v) k2 = pyFind d k2 := by
  induction d with
  | nil => simp [pySet, pyFind, Ne.symm h]
  | cons kv rest ih =>
    obtain ⟨k0, v0⟩ := kv
    by_cases hk : k0 = k
    · subst hk
      simp [pySet, pyFind, Ne.symm h]
    · simp [pySet, hk, pyFind, ih]

/-- Setting a key absent from the dict appends the binding at the end. -/
theorem pySet_eq_append {α : Type} (d : List (String × α)) (k : String) (v : α)
    (h : pyFind d k = none) : pySet d k v = d ++ [(k, v)] := by
  induction d with
  | nil => rfl
  | cons kv rest ih =>
    by_cases hk : kv.1 = k
    · simp [pyFind, hk] at h
    · simp [pyFind, hk] at h
      simp [pySet, hk, ih h]

/-- Lookup distributes over append: the left dict is consulted first. -/
theorem pyFind_append {α : Type} (a b : List (String × α)) (k : String) :
    pyFind (a ++ b) k = match pyFind a k with | some v => some v | none => pyFind b k := by
  induction a with
  | nil => simp [pyFind]
  | cons kv rest ih =>
    by_cases hk : kv.1 = k
    · simp [pyFind, hk]
    · simp [pyFind, hk, ih]

/-- Folding `pySet` over bindings whose keys are fresh for the accumulator and
mutually distinct appends the bindings in order (the Python dict built from
distinct fresh keys lists them in insertion order). -/
theorem foldl_pySet_of_nodup {α : Type} (ps : List (String × α)) :
    ∀ (acc : List (String × α)),
      (∀ k ∈ ps.map Prod.fst, pyFind acc k = none) → (ps.map Prod.fst).Nodup →
      ps.foldl (fun a kv => pySet a kv.1 kv.2) acc = acc ++ ps := by
  induction ps with
  | nil => intro acc _ _; simp
  | cons kv rest ih =>
    intro acc hfresh hnodup
    have h0 : pyFind acc kv.1 = none := hfresh kv.1 (by simp)
    have hstep : pySet acc kv.1 kv.2 = acc ++ [(kv.1, kv.2)] := pySet_eq_append acc kv.1 kv.2 h0
    have hnd : (rest.map Prod.fst).Nodup := (List.nodup_cons.mp hnodup).2
    have hne : kv.1 ∉ rest.map Prod.fst := (List.nodup_cons.mp hnodup).1
    have hfresh2 : ∀ k ∈ rest.map Prod.fst, pyFind (acc ++ [(kv.1, kv.2)]) k = none := by
      intro k hkmem
      rw [pyFind_append]
      have h1 : pyFind acc k = none := hfresh k (by simp [hkmem])
      have h2 : k ≠ kv.1 := fun hh => hne (hh ▸ hkmem)
      simp [h1, pyFind, Ne.symm h2]
    calc (kv :: rest).foldl (fun a kv => pySet a kv.1 kv.2) acc
        = rest.foldl (fun a kv => pySet a kv.1 kv.2) (pySet acc kv.1 kv.2) := rfl
      _ = (acc ++ [(kv.1, kv.2)]) ++ rest := by rw [hstep]; exact ih _ hfresh2 hnd
      _ = acc ++ (kv :: rest) := by simp

/-- Gathering a list of succeeding tasks returns their values in order. -/
theorem gatherAll_map_ok {α : Type} (l : List α) :
    gatherAll (l.map Except.ok) = Except.ok l := by
  induction l with
  | nil => rfl
  | cons x xs ih => simp [gatherAll, ih]

/-- The defaultdict append reaches the addressed entry: afterwards the entry
holds its previous contents (empty if absent) extended by the new items. -/
theorem emLookup_emAppend_self (m : ErrorMap) (pt pn : String) (xs : List PyObj) :
    emLookup (emAppend m pt pn xs) pt pn
      = some (((emLookup m pt pn).getD []) ++ xs) := by
  cases hm : pyFind m pt with
  | none => simp [emAppend, emLookup, hm, pyFind_pySet_self, pyFind]
  | some inner =>
    cases hi : pyFind inner pn with
    | none => simp [emAppend, emLookup, hm, hi, pyFind_pySet_self]
    | some cur => simp [emAppend, emLookup, hm, hi, pyFind_pySet_self]

/-- The defaultdict append leaves every other entry unchanged. -/
theorem emLookup_emAppend_other (m : ErrorMap) (pt pn pt2 pn2 : String) (xs : List PyObj)
    (h : ¬(pt2 = pt ∧ pn2 = pn)) :
    emLookup (emAppend m pt2 pn2 xs) pt pn = emLookup m pt pn := by
  by_cases hpt : pt2 = pt
  · subst hpt
    have hpn : pn2 ≠ pn := fun hh => h ⟨rfl, hh⟩
    cases hm : pyFind m pt2 with
    | none =>
      simp [emAppend, emLookup, hm, hpn, pyFind_pySet_self,
            pyFind_pySet_other _ _ _ _ (Ne.symm hpn), pyFind]
    | some inner =>
      simp [emAppend, emLookup, hm, hpn, pyFind_pySet_self,
            pyFind_pySet_other _ _ _ _ (Ne.symm hpn)]
  · simp [emAppend, emLookup, pyFind_pySet_other _ _ _ _ (Ne.symm hpt)]

/-- The key-insert side effect of one `write_rst` body reaches the rendered
identity: the entry afterwards is its previous contents, `[]` if absent. -/
theorem emLookup_touch_self (m : ErrorMap) (pt pn : String) :
    emLookup (write_rst_errState pn pt m) pt pn = some ((emLookup m pt pn).getD []) := by
  have h := emLookup_emAppend_self m pt pn []
  simpa [write_rst_errState] using h

/-- The key-insert side effect of one `write_rst` body leaves every other
identity's entry unchanged. -/
theorem emLookup_touch_other (m : ErrorMap) (pt pn pt2 pn2 : String)
    (h : ¬(pt2 = pt ∧ pn2 = pn)) :
    emLookup (write_rst_errState pn2 pt2 m) pt pn = emLookup m pt pn := by
  simp only [write_rst_errState]
  exact emLookup_emAppend_other m pt pn pt2 pn2 [] h

/-- Unfolding one step of the render-stage Error Map fold. -/
theorem render_stage_errState_cons (it : String × String) (rest : List (String × String))
    (m : ErrorMap) :
    render_stage_errState (it :: rest) m
      = render_stage_errState rest (write_rst_errState it.2 it.1 m) := rfl

/-- Identities never rendered keep their Error Map entry unchanged. -/
theorem render_stage_errState_untouched (items : List (String × String)) :
    ∀ (m : ErrorMap) (pt pn : String), (pt, pn) ∉ items →
      emLookup (render_stage_errState items m) pt pn = emLookup m pt pn := by
  induction items with
  | nil => intro m pt pn _; rfl
  | cons it rest ih =>
    intro m pt pn h
    have hne : (pt, pn) ≠ it := fun hh => h (by simp [hh])
    have hr : (pt, pn) ∉ rest := fun hh => h (by simp [hh])
    rw [render_stage_errState_cons, ih _ _ _ hr]
    exact emLookup_touch_other m pt pn it.1 it.2
      (fun hh => hne ((Prod.ext hh.1 hh.2).symm))

/-- After the render stage, every rendered identity has an Error Map entry
equal to its prior diagnostics list, with `[]` standing in when the identity
had no entry before. -/
theorem render_stage_errState_mem (items : List (String × String)) :
    ∀ (m : ErrorMap) (pt pn : String), (pt, pn) ∈ items →
      emLookup (render_stage_errState items m) pt pn
        = some ((emLookup m pt pn).getD []) := by
  induction items with
  | nil => intro m pt pn h; cases h
  | cons it rest ih =>
    intro m pt pn h
    by_cases hit : (pt, pn) = it
    · have htouch : emLookup (write_rst_errState it.2 it.1 m) pt pn
          = some ((emLookup m pt pn).getD []) := by
        rw [← hit]
        exact emLookup_touch_self m pt pn
      by_cases hr : (pt, pn) ∈ rest
      · rw [render_stage_errState_cons, ih _ _ _ hr, htouch]
        simp
      · rw [render_stage_errState_cons,
            render_stage_errState_untouched rest _ _ _ hr, htouch]
    · have hr : (pt, pn) ∈ rest := by
        cases List.mem_cons.mp h with
        | inl hh => exact absurd hh hit
        | inr hh => exact hh
      rw [render_stage_errState_cons, ih _ _ _ hr,
          emLookup_touch_other m pt pn it.1 it.2
            (fun hh => hit ((Prod.ext hh.1 hh.2).symm))]

/-- Folding the dict insertions of `retrieve` over fresh, mutually distinct
collection names appends one binding per collection after the accumulator. -/
theorem retrieve_requestors_explicit (dl : String → String → Except String String)
    (collections : List (String × String)) :
    ∀ acc : List (String × Except String String),
      (∀ k ∈ collections.map Prod.fst, pyFind acc k = none) →
      (collections.map Prod.fst).Nodup →
      collections.foldl (fun acc cv => pySet acc cv.1 (dl cv.1 cv.2)) acc
        = acc ++ collections.map (fun cv => (cv.1, dl cv.1 cv.2)) := by
  induction collections with
  | nil => intro acc _ _; simp
  | cons cv rest ih =>
    intro acc hfresh hnodup
    have h0 : pyFind acc cv.1 = none := hfresh cv.1 (by simp)
    have hstep : pySet acc cv.1 (dl cv.1 cv.2) = acc ++ [(cv.1, dl cv.1 cv.2)] :=
      pySet_eq_append _ _ _ h0
    have hnd : (rest.map Prod.fst).Nodup := (List.nodup_cons.mp hnodup).2
    have hne : cv.1 ∉ rest.map Prod.fst := (List.nodup_cons.mp hnodup).1
    have hfresh2 : ∀ k ∈ rest.map Prod.fst,
        pyFind (acc ++ [(cv.1, dl cv.1 cv.2)]) k = none := by
      intro k hk
      rw [pyFind_append]
      have h1 : pyFind acc k = none := hfresh k (by simp [hk])
      have h2 : k ≠ cv.1 := fun hh => hne (hh ▸ hk)
      simp [h1, pyFind, Ne.symm h2]
    calc (cv :: rest).foldl (fun a x => pySet a x.1 (dl x.1 x.2)) acc
        = rest.foldl (fun a x => pySet a x.1 (dl x.1 x.2)) (pySet acc cv.1 (dl cv.1 cv.2)) :=
          rfl
      _ = (acc ++ [(cv.1, dl cv.1 cv.2)]) ++ rest.map (fun x => (x.1, dl x.1 x.2)) := by
          rw [hstep]; exact ih _ hfresh2 hnd
      _ = acc ++ (cv :: rest).map (fun x => (x.1, dl x.1 x.2)) := by simp

/-- The `requestors` dict lists the base binding first and then one binding
per collection, provided the collection names are distinct and none of them
is the reserved base key. -/
theorem retrieve_requestors_ok (base : Except String String)
    (dl : String → String → Except String String)
    (collections : List (String × String))
    (hfresh : "_ansible_base" ∉ collections.map Prod.fst)
    (hnodup : (collections.map Prod.fst).Nodup) :
    retrieve_requestors base dl collections
      = ("_ansible_base", base) :: collections.map (fun cv => (cv.1, dl cv.1 cv.2)) := by
  unfold retrieve_requestors
  have happly := retrieve_requestors_explicit dl collections
    [("_ansible_base", base)]
    (by
      intro k hk
      have hne : k ≠ "_ansible_base" := fun hh => hfresh (hh ▸ hk)
      simp [pyFind, Ne.symm hne])
    hnodup
  simpa using happly

/-- Building a Python dict from zipped keys and values returns the zip as is
when the keys are distinct. -/
theorem pyDictZip_eq_zip {α : Type} (keys : List String) (vals : List α)
    (hlen : keys.length ≤ vals.length) (hnodup : keys.Nodup) :
    pyDictZip keys vals = keys.zip vals := by
  have hnd : ((keys.zip vals).map Prod.fst).Nodup := by
    rw [List.map_fst_zip keys vals hlen]
    exact hnodup
  have happly := foldl_pySet_of_nodup (keys.zip vals) [] (fun k _ => rfl) hnd
  simpa [pyDictZip] using happly

/-- When every task succeeds and the collection names are distinct and avoid
the reserved base key, the mapping `retrieve` returns is, in order, the base
binding followed by one binding per collection, each carrying the value of
its own download task. -/
theorem retrieve_ok (b : String) (f : String → String → String)
    (collections : List (String × String))
    (hfresh : "_ansible_base" ∉ collections.map Prod.fst)
    (hnodup : (collections.map Prod.fst).Nodup) :
    retrieve (Except.ok b) (fun c v => Except.ok (f c v)) collections
      = Except.ok (("_ansible_base", b)
          :: collections.map (fun cv => (cv.1, f cv.1 cv.2))) := by
  have hreq := retrieve_requestors_ok (Except.ok b) (fun c v => Except.ok (f c v))
    collections hfresh hnodup
  have hsnd : (retrieve_requestors (Except.ok b) (fun c v => Except.ok (f c v))
        collections).map Prod.snd
      = (b :: collections.map (fun cv => f cv.1 cv.2)).map Except.ok := by
    rw [hreq]
    simp [List.map_map]
  have hfst : (retrieve_requestors (Except.ok b) (fun c v => Except.ok (f c v))
        collections).map Prod.fst
      = "_ansible_base" :: collections.map Prod.fst := by
    rw [hreq]
    simp [List.map_map]
  have hzip : ("_ansible_base" :: collections.map Prod.fst).zip
        (b :: collections.map (fun cv => f cv.1 cv.2))
      = ("_ansible_base", b) :: collections.map (fun cv => (cv.1, f cv.1 cv.2)) := by
    rw [List.zip_cons_cons]
    rw [show (collections.map Prod.fst) = collections.map (fun cv => cv.1) from rfl,
        List.zip_map']
  have hlen : ("_ansible_base" :: collections.map Prod.fst).length
      ≤ (b :: collections.map (fun cv => f cv.1 cv.2)).length := by
    simp
  have hnd : ("_ansible_base" :: collections.map Prod.fst).Nodup :=
    List.nodup_cons.mpr ⟨hfresh, hnodup⟩
  show (match gatherAll ((retrieve_requestors (Except.ok b)
      (fun c v => Except.ok (f c v)) collections).map Prod.snd) with
    | Except.error e => Except.error e
    | Except.ok responses =>
      Except.ok (pyDictZip ((retrieve_requestors (Except.ok b)
        (fun c v => Except.ok (f c v)) collections).map Prod.fst) responses))
    = Except.ok (("_ansible_base", b)
        :: collections.map (fun cv => (cv.1, f cv.1 cv.2)))
  rw [hsnd, gatherAll_map_ok, hfst]
  show Except.ok (pyDictZip ("_ansible_base" :: collections.map Prod.fst)
      (b :: collections.map (fun cv => f cv.1 cv.2)))
    = Except.ok (("_ansible_base", b) :: collections.map (fun cv => (cv.1, f cv.1 cv.2)))
  rw [pyDictZip_eq_zip _ _ hlen hnd, hzip]

/-! Claim theorems. -/

/-- C1: the claim states that for every input mapping with N item identities,
`normalize_all_plugin_info` returns a mapping with exactly N entries, each
keyed to the identity whose raw record produced it.  The code refutes the
universal claim: on a single-item input whose examples section fails
validation, the aggregation loop evaluates
`nonfatal_errors[...].extend(results[1])` (a slip for `plugin_record[1]`,
contradicting the loop's own positional-zip design) and raises `IndexError`,
so no mapping at all is returned for this 1-item input. -/
theorem c1_single_item_with_diagnostics_crashes :
    normalize_all_plugin_info testSchemas [("module", [("ns.coll.c1", rawBadExamples)])]
      = Except.error "IndexError: list index out of range" := rfl

/-- C2: the claim states that an item whose examples section fails validation
gets the section default, the other sections as submitted, and exactly one
diagnostic entry describing the failed section.  The worker does produce the
defaulted record and the single message, but the aggregation loop extends the
Error Map entry with `results[1]` — the second worker's `(new_info, errors)`
tuple — instead of the item's own `plugin_record[1]`, so the recorded entry is
a dict object and a list object, not the one diagnostic string. -/
theorem c2_recoverable_failure_diagnostics_polluted :
    normalize_all_plugin_info testSchemas
        [("module", [("ns.coll.a", rawBadExamples), ("ns.coll.b", rawGood)])]
      = Except.ok
          ([("module", [("ns.coll.a", outBadExamples), ("ns.coll.b", outGood)])],
           [("module", [("ns.coll.a", [PyObj.dictObj outGood, PyObj.listObj []])])]) := rfl

/-- C3: the claim states that an item whose worker raises is mapped to the
empty record with one diagnostic while every other item is unaffected.  The
code refutes the isolation part: with a good item first, a doc-invalid item
second and an examples-invalid item third, processing the third item runs
`extend(results[1])` where `results[1]` is the second worker's captured
exception, raising `TypeError` and aborting the whole batch — so the worker
failure did affect every other item and no mapping is returned. -/
theorem c3_worker_failure_poisons_other_items :
    normalize_all_plugin_info testSchemas
        [("module", [("ns.coll.g", rawGood), ("ns.coll.x", rawBadDoc),
                     ("ns.coll.r", rawBadExamples)])]
      = Except.error "TypeError: argument of type Exception is not iterable" := rfl

/-- C4: the claim states that rendering identity `(module, "ns.coll.foo")`
under root `root` writes to `root/collections/ns.coll/foo_module.rst`, one
file per identity.  The source line `plugin_file = os.path.join(collection_dir,
'\x7bplugin_name\x7d_\x7bplugin_type\x7d.rst')` lacks the `f` prefix, so every
plugin of a collection writes the same literal-brace file name: the computed
path is the literal one, a second identity collides on it, and the claimed
path is never produced. -/
theorem c4_output_path_is_literal_template :
    write_rst_path "ns.coll.foo" "module" "root"
        = Except.ok "root/collections/ns.coll/\x7bplugin_name\x7d_\x7bplugin_type\x7d.rst" ∧
    write_rst_path "ns.coll.bar" "module" "root"
        = write_rst_path "ns.coll.foo" "module" "root" ∧
    write_rst_path "ns.coll.foo" "module" "root"
        ≠ Except.ok "root/collections/ns.coll/foo_module.rst" :=
  ⟨rfl, rfl, by decide⟩

/-- C5: the claim states that every dispatched render task is awaited and its
failure surfaced.  In the source, `output_all_plugin_rst` ends with a bare
`asyncio.gather(*writers)` that is never awaited: the trace of the coroutine
for a one-item batch contains the dispatched write task and no await of any
task before returning, so per-task failures have nowhere to surface. -/
theorem c5_render_tasks_never_awaited :
    createdTasks (output_all_plugin_rst_trace [("module", [("ns.coll.c5", outGood)])])
        = [("module", "ns.coll.c5")] ∧
    awaitedTasks (output_all_plugin_rst_trace [("module", [("ns.coll.c5", outGood)])])
        = [] :=
  ⟨rfl, rfl⟩

/-- C6: the claim states that a run whose mandatory base acquisition fails
aborts with a distinct non-zero status before any normalization or render
task.  In the source the whole acquisition block sits under `if False:`, so
even with a failing base download the run never acquires, never aborts,
normalizes the dump-file data and reaches the render stage, returning 0. -/
theorem c6_mandatory_failure_does_not_abort :
    generate_docs failingAcq goodDump testSchemas
      = Except.ok ⟨0, [StageEv.normalize, StageEv.render],
                   [RenderEv.createWriteTask "module" "ns.coll.foo", RenderEv.ret]⟩ := rfl

/-- C7: the claim states that the run does not pass the render-stage boundary
or report completion before every render task's write has completed or
failed.  The embedded run refutes this: it reports completion (code 0) while
its render trace shows one dispatched write task and an empty list of awaited
tasks — the un-awaited `asyncio.gather(*writers)` means the stage boundary is
crossed with the write still pending. -/
theorem c7_run_reports_completion_before_writes :
    (generate_docs okAcq dumpC7 testSchemas).toOption.map
        (fun r => (r.code, createdTasks r.renderTrace, awaitedTasks r.renderTrace))
      = some (0, [("module", "ns.coll.c7")], []) := rfl

/-- C8: the claim states that namespace derivation is total, using the first
two dot-separated components and a fixed default when fewer than two exist.
The code refutes totality: the three-way unpacking of `split('.', 2)` raises
`ValueError` for a name with one component and also for one with exactly two,
where the claim prescribes the two components themselves; the
`ansible.builtins` default branch is unreachable because the joined name is
never the empty string. -/
theorem c8_namespace_derivation_not_total :
    write_rst_path "foo" "module" "root"
        = Except.error "ValueError: not enough values to unpack (expected 3)" ∧
    write_rst_path "ns.coll" "module" "root"
        = Except.error "ValueError: not enough values to unpack (expected 3)" :=
  ⟨rfl, rfl⟩

/-- C9: rendering mutates the Error Map through the defaultdict lookup
`nonfatal_errors[plugin_type][plugin_name]` in `write_rst`: after the render
stage runs over `items`, every rendered identity has an entry, and an
identity that had no recorded diagnostics before now maps to a fresh empty
list — so absence of an entry no longer indicates that no non-fatal errors
occurred. -/
theorem c9_render_inserts_empty_entries (items : List (String × String)) (m : ErrorMap)
    (pt pn : String) (h : (pt, pn) ∈ items) :
    (emLookup (render_stage_errState items m) pt pn).isSome = true ∧
    (emLookup m pt pn = none →
      emLookup (render_stage_errState items m) pt pn = some []) := by
  have hmem := render_stage_errState_mem items m pt pn h
  refine ⟨by rw [hmem]; rfl, fun h0 => ?hh⟩
  rw [hmem, h0]
  rfl

/-- Witness for C9 at a concrete rendered identity absent from the map. -/
theorem c9_witness :
    (("module", "ns.coll.w9") ∈ [("module", "ns.coll.w9")]) ∧
    ((emLookup (render_stage_errState [("module", "ns.coll.w9")] [])
        "module" "ns.coll.w9").isSome = true ∧
     (emLookup ([] : ErrorMap) "module" "ns.coll.w9" = none →
      emLookup (render_stage_errState [("module", "ns.coll.w9")] [])
        "module" "ns.coll.w9" = some [])) :=
  ⟨by decide,
   c9_render_inserts_empty_entries [("module", "ns.coll.w9")] [] "module" "ns.coll.w9"
     (by decide)⟩

/-- C10: for a collections mapping on which every acquisition task succeeds,
`retrieve` returns the key set `{_ansible_base} ∪ collections`, each key
bound to its own task's location (the zip of the requestors dict with the
gathered responses preserves the association because both follow insertion
order); the base task is created before any collection download task and the
collections directory is created before any task is dispatched. -/
theorem c10_retrieve_association (b : String) (f : String → String → String)
    (collections : List (String × String)) (tmp_dir : String)
    (hfresh : "_ansible_base" ∉ collections.map Prod.fst)
    (hnodup : (collections.map Prod.fst).Nodup) :
    retrieve (Except.ok b) (fun c v => Except.ok (f c v)) collections
      = Except.ok (("_ansible_base", b)
          :: collections.map (fun cv => (cv.1, f cv.1 cv.2))) ∧
    retrieve_events tmp_dir collections
      = AcqEv.mkdirCollections (ospJoin tmp_dir "collections") :: AcqEv.createBaseTask ::
          collections.map (fun cv => AcqEv.createDownloadTask cv.1) :=
  ⟨retrieve_ok b f collections hfresh hnodup, rfl⟩

/-- Witness for C10 on a one-collection mapping with succeeding tasks. -/
theorem c10_witness :
    ("_ansible_base" ∉ ([("ns.coll", "1.0")] : List (String × String)).map Prod.fst) ∧
    (([("ns.coll", "1.0")] : List (String × String)).map Prod.fst).Nodup ∧
    (retrieve (Except.ok "base-dir") (fun c v => Except.ok (c ++ "-" ++ v))
        [("ns.coll", "1.0")]
      = Except.ok [("_ansible_base", "base-dir"), ("ns.coll", "ns.coll-1.0")] ∧
     retrieve_events "tmp" [("ns.coll", "1.0")]
      = [AcqEv.mkdirCollections "tmp/collections", AcqEv.createBaseTask,
         AcqEv.createDownloadTask "ns.coll"]) :=
  ⟨by decide, by decide,
   c10_retrieve_association "base-dir" (fun c v => c ++ "-" ++ v) [("ns.coll", "1.0")]
     "tmp" (by decide) (by decide)⟩

end Ansibulled
